import Mathlib

/-! Verification of the `run-in-roblox` orchestrator (`src/main.rs`).

The tool copies a Roblox place file into a temporary directory, spawns a
bridge-server thread (`PlaceRunner.run`) that relays log output from a
launched Roblox Studio instance over an mpsc channel, drains that channel
on the main thread while tallying message severities, optionally reaps the
lingering Studio process, and turns the tally into a process exit code.

This file shallowly embeds the data model and the `run`/`main` control flow
of `src/main.rs` and proves the specification claims about them.
-/

namespace RunInRoblox

/-- Severity levels of the bridge protocol (`message_receiver::OutputLevel`).
Variants as used by `src/main.rs`: `Print`, `Info`, `Warning`, `Error`. -/
inductive OutputLevel where
  | print
  | info
  | warning
  | error
deriving DecidableEq, Repr

/-- `message_receiver::RobloxMessage` — the only variant used in `main.rs` is
`Output { level, body }`. -/
structure RobloxMessage where
  level : OutputLevel
  body : String
deriving DecidableEq, Repr

/-- One `receiver.recv()` outcome as seen by the drain loop in `run`
(`main.rs` line 99).  The Rust channel carries `Option<RobloxMessage>`:
`Ok(Some(m))` is a log event, `Ok(None)` is the end marker pushed by the
bridge thread, and `Err(RecvError)` means the sender was dropped without an
end marker. -/
inductive ChannelItem where
  | message (m : RobloxMessage)
  | endMarker
  | disconnected
deriving DecidableEq, Repr

/-- Mutable state of the drain loop of `run` (`main.rs` lines 93-97):
`exit_code`, `warning_count`, `error_count`, `print_count`, all initialized
to zero. -/
structure LoopState where
  exitCode : Nat
  warningCount : Nat
  errorCount : Nat
  printCount : Nat
deriving DecidableEq, Repr

/-- The initial loop state (`main.rs` lines 93-97). -/
def initLoopState : LoopState :=
  { exitCode := 0, warningCount := 0, errorCount := 0, printCount := 0 }

/-- Processing of one received `RobloxMessage::Output` (`main.rs` lines
101-119): the body is printed (a side effect outside the model), then
`Error` sets `exit_code = 1` and bumps `error_count`; `Warning` bumps
`warning_count`; `Print` bumps `print_count`.  `Info` matches none of the
three `if` branches and changes no counter. -/
def stepMessage (s : LoopState) (m : RobloxMessage) : LoopState :=
  if m.level = OutputLevel.error then
    { s with exitCode := 1, errorCount := s.errorCount + 1 }
  else if m.level = OutputLevel.warning then
    { s with warningCount := s.warningCount + 1 }
  else if m.level = OutputLevel.print then
    { s with printCount := s.printCount + 1 }
  else
    s

/-- Result of draining the channel: the `while let` loop ends normally on
the end marker (`Ok(None)`), the `?` on `recv()` aborts `run` on a closed
channel, and an empty remainder means the real `recv()` would block. -/
inductive DrainResult where
  | finished (s : LoopState)
  | recvError
  | blocked
deriving DecidableEq, Repr

/-- The drain loop `while let Some(message) = receiver.recv()?` (`main.rs`
lines 99-121), over an explicit list of channel outcomes.  Returns the
result together with the number of messages consumed.  Items after the end
marker are never received: the loop has exited. -/
def drainLoop (s : LoopState) (consumed : Nat) :
    List ChannelItem → DrainResult × Nat
  | [] => (DrainResult.blocked, consumed)
  | ChannelItem.endMarker :: _ => (DrainResult.finished s, consumed)
  | ChannelItem.disconnected :: _ => (DrainResult.recvError, consumed)
  | ChannelItem.message m :: rest => drainLoop (stepMessage s m) (consumed + 1) rest

/-- Severity tally as the spec's classification policy words it
(spec §4.3): error events count as errors, warning events as warnings, and
informational or print events both count as prints.  Used to compare the
spec's wording with the code's actual tally. -/
structure SpecTally where
  errors : Nat
  warnings : Nat
  prints : Nat
deriving DecidableEq, Repr

/-- The tally claimed by the spec's classification policy, per §4.3:
"an informational/print-severity event increments a print count only". -/
def specClassificationTally (events : List RobloxMessage) : SpecTally :=
  { errors := events.countP (fun m => m.level = OutputLevel.error)
    warnings := events.countP (fun m => m.level = OutputLevel.warning)
    prints := events.countP
      (fun m => m.level = OutputLevel.info ∨ m.level = OutputLevel.print) }

/-- Claim C1 as stated, as a predicate on an event sequence: after draining
the events followed by one end marker, the final counts equal the spec's
classification tally. -/
def claimC1Holds (events : List RobloxMessage) : Prop :=
  match (drainLoop initLoopState 0
      (events.map ChannelItem.message ++ [ChannelItem.endMarker])).1 with
  | DrainResult.finished s =>
      s.errorCount = (specClassificationTally events).errors ∧
      s.warningCount = (specClassificationTally events).warnings ∧
      s.printCount = (specClassificationTally events).prints
  | _ => False

instance (events : List RobloxMessage) : Decidable (claimC1Holds events) := by
  unfold claimC1Holds
  cases (drainLoop initLoopState 0
      (events.map ChannelItem.message ++ [ChannelItem.endMarker])).1 <;>
    simp <;> infer_instance

/-! Section: string predicates used by the Reaper (Rust `str` methods). -/

/-- Rust `str::ends_with` (used on `cmd[0]` at `main.rs` line 138). -/
def strEndsWith (s pat : String) : Bool :=
  pat.data.isSuffixOf s.data

/-- Containment of `pat` as a contiguous run inside a character list. -/
def listContainsSeq (pat : List Char) : List Char → Bool
  | [] => pat.isEmpty
  | c :: t => pat.isPrefixOf (c :: t) || listContainsSeq pat t

/-- Rust `str::contains` with a string pattern (used on `cmd[1]` at
`main.rs` line 140, and by `sysinfo` name matching). -/
def strContains (s pat : String) : Bool :=
  listContainsSeq pat.data s.data

/-! Section: Workspace Preparer and Process Reaper. -/

/-- The workspace fingerprint: the literal substring the Reaper searches
for in a candidate's second command-line argument (`main.rs` line 140).
The Workspace Preparer embeds the same substring in the copied place's
filename (`main.rs` line 64). -/
def workspaceFingerprint : String := "run-in-roblox-place"

/-- Filename of the prepared workspace copy:
`format!("run-in-roblox-place.{}", extension)` (`main.rs` lines 62-64). -/
def tempPlaceFileName (extension : String) : String :=
  "run-in-roblox-place." ++ extension

/-- One enumerated OS process as the Reaper sees it through `sysinfo`:
a pid, an executable name, and the invocation command line. -/
structure Proc where
  pid : Nat
  name : String
  cmd : List String
deriving DecidableEq, Repr

/-- `system.processes_by_name("wine")` (`main.rs` line 131): `sysinfo`
keeps the processes whose name contains the pattern as a substring. -/
def processesByName (pat : String) (ps : List Proc) : List Proc :=
  ps.filter (fun p => strContains p.name pat)

/-- Per-process body of the Reaper loop (`main.rs` lines 131-148): a
process whose command line has at most one entry is skipped (`continue` at
line 134); otherwise it is signalled iff `cmd[0]` ends with
`"RobloxStudioBeta.exe"` and `cmd[1]` contains the workspace fingerprint
(the `match` guard at lines 137-145). -/
def reapDecision (p : Proc) : Bool :=
  match p.cmd with
  | c0 :: c1 :: _ =>
      strEndsWith c0 "RobloxStudioBeta.exe" && strContains c1 workspaceFingerprint
  | _ => false

/-- The whole Reaper pass (`main.rs` lines 129-148): the sublist of the
process table that is sent `Signal::Term`. -/
def reaper (ps : List Proc) : List Proc :=
  (processesByName "wine" ps).filter reapDecision

/-! Section: PlaceRunner construction and the `run`/`main` control flow. -/

/-- `place_runner::PlaceRunner` as constructed in `run`. -/
structure PlaceRunner where
  port : Nat
  place_path : String
  server_id : String
  lua_script : String
deriving DecidableEq, Repr

/-- Construction of the `PlaceRunner` (`main.rs` lines 80-85): the port is
the literal `50312`; path, session id and script come from the run. -/
def mkPlaceRunner (place_path server_id lua_script : String) : PlaceRunner :=
  { port := 50312
    place_path := place_path
    server_id := server_id
    lua_script := lua_script }

/-- Outcome of inspecting the `--place` argument's extension
(`main.rs` lines 56-60). -/
inductive ExtensionResult where
  | missing
  | invalidUnicode
  | valid (ext : String)
deriving DecidableEq, Repr

/-- The fatal errors `run` returns through `?`/`anyhow!` that the claims
exercise. -/
inductive RunError where
  | noExtension
  | invalidUnicode
  | copyFailed
  | scriptReadFailed (msg : String)
  | recvDisconnected
deriving DecidableEq, Repr

/-- How `run` ends: a normal return with the final loop state, an `Err`
propagated to `main`, a `panic!`/`unimplemented!` abort, or blocking
forever on an open but silent channel. -/
inductive RunTermination where
  | ok (s : LoopState)
  | err (e : RunError)
  | panicked (msg : String)
  | blocked
deriving DecidableEq, Repr

/-- Observable effects of one `run`, recorded alongside its termination. -/
structure RunTrace where
  bridgeSpawned : Bool
  runnerPort : Option Nat
  eventsConsumed : Nat
  reaperRan : Bool
  killed : List Proc
deriving DecidableEq, Repr

/-- The trace before any effect has happened. -/
def emptyTrace : RunTrace :=
  { bridgeSpawned := false
    runnerPort := none
    eventsConsumed := 0
    reaperRan := false
    killed := [] }

/-- The environment one `run` executes in: the parsed command-line options
and the outcomes of the external effects `run` performs. -/
structure Env where
  place : Option ExtensionResult
  copyOk : Bool
  scriptRead : Except String String
  serverId : String
  channel : List ChannelItem
  stayAlive : Bool
  linux : Bool
  processes : List Proc
deriving Repr

/-- The body of `run` (`main.rs` lines 38-173) as a function of the
environment, returning the termination and the trace of side effects, in
source order: place handling and copy (lines 54-71), script read (line 73),
`PlaceRunner` construction and bridge-thread spawn (lines 80-91), the drain
loop (lines 99-121), then the stay-alive gate and Reaper (lines 123-149).
Temp-directory creation (lines 42-51) and console printing (lines 109, 142,
152-170) are IO effects outside the model. -/
def run (env : Env) : RunTermination × RunTrace :=
  match env.place with
  | none =>
      (RunTermination.panicked "run-in-roblox with no place argument", emptyTrace)
  | some ExtensionResult.missing =>
      (RunTermination.err RunError.noExtension, emptyTrace)
  | some ExtensionResult.invalidUnicode =>
      (RunTermination.err RunError.invalidUnicode, emptyTrace)
  | some (ExtensionResult.valid _ext) =>
    if !env.copyOk then
      (RunTermination.err RunError.copyFailed, emptyTrace)
    else
      match env.scriptRead with
      | Except.error msg =>
          (RunTermination.err (RunError.scriptReadFailed msg), emptyTrace)
      | Except.ok script =>
        match drainLoop initLoopState 0 env.channel with
        | (DrainResult.blocked, n) =>
            (RunTermination.blocked,
             { bridgeSpawned := true
               runnerPort := some (mkPlaceRunner (tempPlaceFileName _ext)
                                     env.serverId script).port
               eventsConsumed := n
               reaperRan := false
               killed := [] })
        | (DrainResult.recvError, n) =>
            (RunTermination.err RunError.recvDisconnected,
             { bridgeSpawned := true
               runnerPort := some (mkPlaceRunner (tempPlaceFileName _ext)
                                     env.serverId script).port
               eventsConsumed := n
               reaperRan := false
               killed := [] })
        | (DrainResult.finished s, n) =>
          if !env.stayAlive then
            if !env.linux then
              (RunTermination.panicked
                 "run-in-roblox with stay-alive on non-linux pcs",
               { bridgeSpawned := true
                 runnerPort := some (mkPlaceRunner (tempPlaceFileName _ext)
                                       env.serverId script).port
                 eventsConsumed := n
                 reaperRan := false
                 killed := [] })
            else
              (RunTermination.ok s,
               { bridgeSpawned := true
                 runnerPort := some (mkPlaceRunner (tempPlaceFileName _ext)
                                       env.serverId script).port
                 eventsConsumed := n
                 reaperRan := true
                 killed := reaper env.processes })
          else
            (RunTermination.ok s,
             { bridgeSpawned := true
               runnerPort := some (mkPlaceRunner (tempPlaceFileName _ext)
                                     env.serverId script).port
               eventsConsumed := n
               reaperRan := false
               killed := [] })

/-- `main` (`main.rs` lines 175-193): `Ok(code)` exits the process with
`code`, `Err(_)` logs the error and exits with `2`; a panicked or blocked
run never reaches `process::exit`. -/
def mainExit : RunTermination → Option Nat
  | RunTermination.ok s => some s.exitCode
  | RunTermination.err _ => some 2
  | RunTermination.panicked _ => none
  | RunTermination.blocked => none

/-! Section: concrete data used by the witnesses. -/

/-- A `wine` process running this run's prepared place file. -/
def sampleMatchingProc : Proc :=
  { pid := 101
    name := "wine64"
    cmd := ["Z:/Roblox/RobloxStudioBeta.exe", "/tmp/x1/run-in-roblox-place.rbxl"] }

/-- A `wine` process running the same executable on an unrelated place. -/
def sampleOtherProc : Proc :=
  { pid := 102
    name := "wine64"
    cmd := ["Z:/Roblox/RobloxStudioBeta.exe", "/home/dev/my-game.rbxl"] }

/-- A `wine` process whose command line has a single entry. -/
def sampleShortProc : Proc :=
  { pid := 103
    name := "wine64"
    cmd := ["Z:/Roblox/RobloxStudioBeta.exe"] }

/-- A run whose channel is dropped without an end marker. -/
def envC3 : Env :=
  { place := some (ExtensionResult.valid "rbxl")
    copyOk := true
    scriptRead := Except.ok "print(1)"
    serverId := "run-in-roblox-1234"
    channel := [ChannelItem.disconnected]
    stayAlive := true
    linux := true
    processes := [] }

/-- A non-linux run that asks for cleanup (`stay_alive = false`). -/
def envC5 : Env :=
  { envC3 with channel := [ChannelItem.endMarker], stayAlive := false, linux := false }

/-- A linux run that asks for cleanup, reaching the Reaper. -/
def envReap : Env :=
  { envC3 with channel := [ChannelItem.endMarker], stayAlive := false, linux := true }

/-- A run invoked without `--place`. -/
def envC6 : Env :=
  { envC3 with place := none }

/-- A run whose script file cannot be read. -/
def envC7 : Env :=
  { envC3 with scriptRead := Except.error "No such file" }

/-! Section: helper lemmas. -/

theorem drainLoop_append_messages (events : List RobloxMessage) (s : LoopState)
    (n : Nat) (rest : List ChannelItem) :
    drainLoop s n (events.map ChannelItem.message ++ rest)
      = drainLoop (events.foldl stepMessage s) (n + events.length) rest := by
  induction events generalizing s n with
  | nil => simp
  | cons m tl ih =>
    simp only [List.map_cons, List.cons_append, drainLoop, List.foldl_cons,
      List.length_cons, List.append_eq]
    rw [ih]
    have harith : n + 1 + tl.length = n + (tl.length + 1) := by omega
    rw [harith]

theorem LoopState.ext_of_fields {a b : LoopState}
    (h1 : a.exitCode = b.exitCode) (h2 : a.warningCount = b.warningCount)
    (h3 : a.errorCount = b.errorCount) (h4 : a.printCount = b.printCount) :
    a = b := by
  cases a
  cases b
  simp_all

theorem foldl_stepMessage_exitCode (events : List RobloxMessage) (s : LoopState) :
    (events.foldl stepMessage s).exitCode
      = if events.any (fun m => m.level = OutputLevel.error) then 1 else s.exitCode := by
  induction events generalizing s with
  | nil => simp
  | cons m tl ih =>
    rw [List.foldl_cons, ih, List.any_cons]
    cases hm : m.level <;> simp [stepMessage, hm]

theorem foldl_stepMessage_errorCount (events : List RobloxMessage) (s : LoopState) :
    (events.foldl stepMessage s).errorCount
      = s.errorCount + events.countP (fun m => m.level = OutputLevel.error) := by
  induction events generalizing s with
  | nil => simp
  | cons m tl ih =>
    rw [List.foldl_cons, ih, List.countP_cons]
    cases hm : m.level <;> simp [stepMessage, hm] <;> omega

theorem foldl_stepMessage_warningCount (events : List RobloxMessage) (s : LoopState) :
    (events.foldl stepMessage s).warningCount
      = s.warningCount + events.countP (fun m => m.level = OutputLevel.warning) := by
  induction events generalizing s with
  | nil => simp
  | cons m tl ih =>
    rw [List.foldl_cons, ih, List.countP_cons]
    cases hm : m.level <;> simp [stepMessage, hm] <;> omega

theorem foldl_stepMessage_printCount (events : List RobloxMessage) (s : LoopState) :
    (events.foldl stepMessage s).printCount
      = s.printCount + events.countP (fun m => m.level = OutputLevel.print) := by
  induction events generalizing s with
  | nil => simp
  | cons m tl ih =>
    rw [List.foldl_cons, ih, List.countP_cons]
    cases hm : m.level <;> simp [stepMessage, hm] <;> omega

theorem foldl_stepMessage_eval (events : List RobloxMessage) :
    events.foldl stepMessage initLoopState
      = { exitCode :=
            if events.any (fun m => m.level = OutputLevel.error) then 1 else 0
          warningCount := events.countP (fun m => m.level = OutputLevel.warning)
          errorCount := events.countP (fun m => m.level = OutputLevel.error)
          printCount := events.countP (fun m => m.level = OutputLevel.print) } := by
  apply LoopState.ext_of_fields
  · rw [foldl_stepMessage_exitCode]
    simp [initLoopState]
  · rw [foldl_stepMessage_warningCount]
    simp [initLoopState]
  · rw [foldl_stepMessage_errorCount]
    simp [initLoopState]
  · rw [foldl_stepMessage_printCount]
    simp [initLoopState]

theorem isPrefixOf_self_append (pat r : List Char) :
    pat.isPrefixOf (pat ++ r) = true := by
  induction pat with
  | nil => simp [List.isPrefixOf]
  | cons c t ih => simp [List.isPrefixOf, ih]

theorem listContainsSeq_of_isPrefixOf (pat s : List Char)
    (h : pat.isPrefixOf s = true) : listContainsSeq pat s = true := by
  cases s with
  | nil =>
    cases pat with
    | nil => rfl
    | cons c t => simp [List.isPrefixOf] at h
  | cons c t => simp [listContainsSeq, h]

theorem run_trace_cases (env : Env) :
    (run env).2 = emptyTrace ∨
    ((run env).2.bridgeSpawned = true ∧
     (run env).2.runnerPort = some 50312 ∧
     ((run env).2.reaperRan = true → env.stayAlive = false ∧ env.linux = true)) := by
  obtain ⟨pl, cp, sr, sid, ch, sa, lx, ps⟩ := env
  rcases pl with _ | er
  · left
    rfl
  · rcases er with _ | _ | ext2
    · left
      rfl
    · left
      rfl
    · cases cp with
      | false =>
        left
        rfl
      | true =>
        cases sr with
        | error msg =>
          left
          rfl
        | ok script =>
          rcases hdl : drainLoop initLoopState 0 ch with ⟨dr, n⟩
          cases dr with
          | blocked =>
            right
            simp [run, hdl, mkPlaceRunner]
          | recvError =>
            right
            simp [run, hdl, mkPlaceRunner]
          | finished s =>
            cases sa with
            | true =>
              right
              simp [run, hdl, mkPlaceRunner]
            | false =>
              cases lx with
              | false =>
                right
                simp [run, hdl, mkPlaceRunner]
              | true =>
                right
                simp [run, hdl, mkPlaceRunner]

/-! Section: claim theorems. -/

/-- Claim C1, counterexample: the claim as stated is false on the code.
For the single informational-severity event, the stated classification
policy says the print count becomes 1, but the drain loop of `run`
(`main.rs` lines 111-118) has no branch for `OutputLevel::Info`, so no
counter is incremented and the print count stays 0. -/
theorem claimC1_false_on_info :
    ¬ claimC1Holds [{ level := OutputLevel.info, body := "hello" }] := by
  decide

/-- Claim C1, amended: for every sequence of Log Events delivered on the
channel followed by one end marker, the final counts are the exact tally
by severity under the code's classification: each error-severity event
increments the error count (and forces exit code 1), each warning-severity
event increments the warning count only, each print-severity event
increments the print count only, and each informational-severity event
increments no count; nothing at or after the end marker is consumed, so
items delivered after it are never counted. -/
theorem orchestrator_final_tally (events : List RobloxMessage)
    (extra : List ChannelItem) :
    drainLoop initLoopState 0
        (events.map ChannelItem.message ++ ChannelItem.endMarker :: extra)
      = (DrainResult.finished
           { exitCode :=
               if events.any (fun m => m.level = OutputLevel.error) then 1 else 0
             warningCount := events.countP (fun m => m.level = OutputLevel.warning)
             errorCount := events.countP (fun m => m.level = OutputLevel.error)
             printCount := events.countP (fun m => m.level = OutputLevel.print) },
         events.length) := by
  rw [drainLoop_append_messages, foldl_stepMessage_eval]
  simp [drainLoop]

/-- Claim C2: draining any sequence of Log Events followed by an end marker
finishes with exit code 1 (the failure value, non-zero) iff at least one
error-severity event occurred, and with exit code 0 (the success value)
iff no error-severity event occurred, regardless of how many warning- or
print-severity events the sequence holds. -/
theorem exit_code_iff_error_seen (events : List RobloxMessage)
    (extra : List ChannelItem) :
    ∃ s : LoopState,
      (drainLoop initLoopState 0
          (events.map ChannelItem.message ++ ChannelItem.endMarker :: extra)).1
        = DrainResult.finished s ∧
      (s.exitCode = 1 ↔ 0 < s.errorCount) ∧
      (s.exitCode = 0 ↔ s.errorCount = 0) := by
  refine ⟨events.foldl stepMessage initLoopState, ?_, ?_, ?_⟩
  · rw [drainLoop_append_messages]
    rfl
  all_goals
    rw [foldl_stepMessage_exitCode, foldl_stepMessage_errorCount]
    simp only [initLoopState, Nat.zero_add]
    cases hany : events.any (fun m => m.level = OutputLevel.error) with
    | true =>
      have hpos : 0 < events.countP (fun m => m.level = OutputLevel.error) :=
        List.countP_pos_iff.mpr (List.any_eq_true.mp hany)
      rw [if_pos rfl]
      omega
    | false =>
      have hz : events.countP (fun m => m.level = OutputLevel.error) = 0 := by
        by_contra hne
        have hpos := Nat.pos_of_ne_zero hne
        have hx := List.any_eq_true.mpr (List.countP_pos_iff.mp hpos)
        simp [hany] at hx
      rw [if_neg (by decide)]
      omega

/-- Claim C3: when the channel is closed (producer dropped) without an end
marker having been observed, `run` aborts with the transport error
propagated by `?` on `recv()` (`main.rs` line 99), and `main` turns it
into process exit code 2 (`main.rs` line 190), which differs from every
exit code a normally completed run can produce (0 on success, 1 on test
failure). -/
theorem transport_closed_distinct_exit (env : Env) (ext script : String)
    (events : List RobloxMessage)
    (hplace : env.place = some (ExtensionResult.valid ext))
    (hcopy : env.copyOk = true)
    (hscript : env.scriptRead = Except.ok script)
    (hchannel : env.channel
      = events.map ChannelItem.message ++ [ChannelItem.disconnected]) :
    (run env).1 = RunTermination.err RunError.recvDisconnected ∧
    mainExit (run env).1 = some 2 ∧
    ∀ s : LoopState, s.exitCode = 0 ∨ s.exitCode = 1 →
      mainExit (RunTermination.ok s) ≠ mainExit (run env).1 := by
  have hrun : (run env).1 = RunTermination.err RunError.recvDisconnected := by
    simp [run, hplace, hcopy, hscript, hchannel, drainLoop_append_messages,
      drainLoop]
  refine ⟨hrun, by rw [hrun]; rfl, ?_⟩
  intro s hs
  rw [hrun]
  rcases hs with h | h <;> simp [mainExit, h]

/-- Claim C3, witness at a concrete run. -/
theorem transport_closed_distinct_exit_witness :
    (run envC3).1 = RunTermination.err RunError.recvDisconnected ∧
    mainExit (run envC3).1 = some 2 ∧
    mainExit (RunTermination.ok initLoopState) ≠ mainExit (run envC3).1 :=
  ⟨(transport_closed_distinct_exit envC3 "rbxl" "print(1)" [] rfl rfl rfl rfl).1,
   (transport_closed_distinct_exit envC3 "rbxl" "print(1)" [] rfl rfl rfl rfl).2.1,
   (transport_closed_distinct_exit envC3 "rbxl" "print(1)" [] rfl rfl rfl rfl).2.2
     initLoopState (Or.inl rfl)⟩

/-- Claim C5: a run that does not keep Studio alive, on a platform without
process-argument introspection for the cleanup (non-linux in this code),
ends in the explicit `unimplemented!` panic at `main.rs` lines 123-127
instead of completing with the cleanup silently skipped; and the Reaper
pass runs only when cleanup was requested (`stay_alive = false`) on the
supported (linux) platform. -/
theorem cleanup_unsupported_platform (env : Env) (ext script : String)
    (events : List RobloxMessage) (extra : List ChannelItem)
    (hplace : env.place = some (ExtensionResult.valid ext))
    (hcopy : env.copyOk = true)
    (hscript : env.scriptRead = Except.ok script)
    (hchannel : env.channel
      = events.map ChannelItem.message ++ ChannelItem.endMarker :: extra) :
    (env.stayAlive = false → env.linux = false →
      (run env).1
        = RunTermination.panicked "run-in-roblox with stay-alive on non-linux pcs") ∧
    ∀ env2 : Env, (run env2).2.reaperRan = true →
      env2.stayAlive = false ∧ env2.linux = true := by
  constructor
  · intro hsa hlx
    simp [run, hplace, hcopy, hscript, hchannel, drainLoop_append_messages,
      drainLoop, hsa, hlx]
  · intro env2 h
    rcases run_trace_cases env2 with hcase | hcase
    · rw [hcase] at h
      simp [emptyTrace] at h
    · exact hcase.2.2 h

/-- Claim C5, witness: a concrete non-linux cleanup run panics, and a
concrete linux cleanup run that reaches the Reaper has
`stay_alive = false` on linux. -/
theorem cleanup_unsupported_platform_witness :
    (run envC5).1
      = RunTermination.panicked "run-in-roblox with stay-alive on non-linux pcs" ∧
    (envReap.stayAlive = false ∧ envReap.linux = true) :=
  ⟨(cleanup_unsupported_platform envC5 "rbxl" "print(1)" [] [] rfl rfl rfl rfl).1
     rfl rfl,
   (cleanup_unsupported_platform envC5 "rbxl" "print(1)" [] [] rfl rfl rfl rfl).2
     envReap (by decide)⟩

/-- Claim C6: when no `--place` path is given, `run` hits the explicit
`unimplemented!("run-in-roblox with no place argument")` at `main.rs`
line 69 — an explicitly flagged unimplemented condition that aborts the
process — rather than substituting a default place and returning an exit
code. -/
theorem no_place_is_unimplemented (env : Env) (h : env.place = none) :
    (run env).1 = RunTermination.panicked "run-in-roblox with no place argument" ∧
    mainExit (run env).1 = none := by
  have hrun : (run env).1
      = RunTermination.panicked "run-in-roblox with no place argument" := by
    simp [run, h]
  exact ⟨hrun, by rw [hrun]; rfl⟩

/-- Claim C6, witness at a concrete run. -/
theorem no_place_is_unimplemented_witness :
    (run envC6).1 = RunTermination.panicked "run-in-roblox with no place argument" ∧
    mainExit (run envC6).1 = none :=
  no_place_is_unimplemented envC6 rfl

/-- Claim C7: a missing or unreadable script file makes `run` return the
fatal read error (`main.rs` line 73) before the bridge-server thread is
spawned (line 89) and before Studio is launched by that thread, so the
trace shows no spawn, no consumed events, and no signalled process. -/
theorem script_read_failure_pre_spawn (env : Env) (ext msg : String)
    (hplace : env.place = some (ExtensionResult.valid ext))
    (hcopy : env.copyOk = true)
    (hscript : env.scriptRead = Except.error msg) :
    run env = (RunTermination.err (RunError.scriptReadFailed msg), emptyTrace) ∧
    (run env).2.bridgeSpawned = false ∧
    (run env).2.eventsConsumed = 0 ∧
    (run env).2.reaperRan = false ∧
    (run env).2.killed = [] := by
  have hrun : run env
      = (RunTermination.err (RunError.scriptReadFailed msg), emptyTrace) := by
    simp [run, hplace, hcopy, hscript]
  refine ⟨hrun, ?_, ?_, ?_, ?_⟩ <;> rw [hrun] <;> rfl

/-- Claim C7, witness at a concrete run. -/
theorem script_read_failure_pre_spawn_witness :
    run envC7 = (RunTermination.err (RunError.scriptReadFailed "No such file"),
                 emptyTrace) ∧
    (run envC7).2.bridgeSpawned = false ∧
    (run envC7).2.eventsConsumed = 0 ∧
    (run envC7).2.reaperRan = false ∧
    (run envC7).2.killed = [] :=
  script_read_failure_pre_spawn envC7 "rbxl" "No such file" rfl rfl rfl

/-- Claim C4: given a process list with one instance whose executable
matches the target application (a `wine` process whose `cmd[0]` ends with
`RobloxStudioBeta.exe`) and whose arguments carry the workspace
fingerprint, and one instance of the same executable whose arguments do
not carry the fingerprint, the Reaper (`main.rs` lines 129-148) signals
exactly the matching instance and no other process. -/
theorem reaper_signals_only_matching (pm po : Proc)
    (hmName : strContains pm.name "wine" = true)
    (hoName : strContains po.name "wine" = true)
    (c0 c1 : String) (restm : List String)
    (hmCmd : pm.cmd = c0 :: c1 :: restm)
    (hmExe : strEndsWith c0 "RobloxStudioBeta.exe" = true)
    (hmFp : strContains c1 workspaceFingerprint = true)
    (d0 d1 : String) (resto : List String)
    (hoCmd : po.cmd = d0 :: d1 :: resto)
    (hoExe : strEndsWith d0 "RobloxStudioBeta.exe" = true)
    (hoFp : strContains d1 workspaceFingerprint = false) :
    reaper [pm, po] = [pm] := by
  unfold reaper processesByName
  simp [List.filter, hmName, hoName, reapDecision, hmCmd, hoCmd, hmExe, hmFp,
    hoExe, hoFp]

/-- Claim C4, witness at a concrete process table. -/
theorem reaper_signals_only_matching_witness :
    reaper [sampleMatchingProc, sampleOtherProc] = [sampleMatchingProc] :=
  reaper_signals_only_matching sampleMatchingProc sampleOtherProc
    (by decide) (by decide)
    "Z:/Roblox/RobloxStudioBeta.exe" "/tmp/x1/run-in-roblox-place.rbxl" []
    rfl (by decide) (by decide)
    "Z:/Roblox/RobloxStudioBeta.exe" "/home/dev/my-game.rbxl" []
    rfl (by decide) (by decide)

/-- Claim C8: the prepared workspace copy's filename
(`run-in-roblox-place.{ext}`, `main.rs` line 64) contains the fixed
fingerprint substring, and that same substring is the one the Reaper
searches for in a candidate's second command-line argument
(`main.rs` line 140). -/
theorem prepared_name_carries_reaper_fingerprint (ext : String) :
    strContains (tempPlaceFileName ext) workspaceFingerprint = true ∧
    ∀ (p : Proc) (c0 c1 : String) (rest : List String),
      p.cmd = c0 :: c1 :: rest →
      reapDecision p
        = (strEndsWith c0 "RobloxStudioBeta.exe"
            && strContains c1 workspaceFingerprint) := by
  constructor
  · unfold strContains tempPlaceFileName
    apply listContainsSeq_of_isPrefixOf
    have hdata : ("run-in-roblox-place." : String).data
        = workspaceFingerprint.data ++ ['.'] := by decide
    rw [String.data_append, hdata, List.append_assoc]
    exact isPrefixOf_self_append _ _
  · intro p c0 c1 rest hcmd
    unfold reapDecision
    rw [hcmd]

/-- Claim C8, witness at a concrete extension and process. -/
theorem prepared_name_carries_reaper_fingerprint_witness :
    strContains (tempPlaceFileName "rbxl") workspaceFingerprint = true ∧
    reapDecision sampleMatchingProc
      = (strEndsWith "Z:/Roblox/RobloxStudioBeta.exe" "RobloxStudioBeta.exe"
          && strContains "/tmp/x1/run-in-roblox-place.rbxl" workspaceFingerprint) :=
  ⟨(prepared_name_carries_reaper_fingerprint "rbxl").1,
   (prepared_name_carries_reaper_fingerprint "rbxl").2 sampleMatchingProc
     "Z:/Roblox/RobloxStudioBeta.exe" "/tmp/x1/run-in-roblox-place.rbxl" [] rfl⟩

/-- Claim C9: the Reaper skips every enumerated process whose command line
has fewer than two entries — the `continue` at `main.rs` lines 133-135
fires before `cmd[0]`/`cmd[1]` are read — so such a process is never
signalled, whatever the rest of the process table holds. -/
theorem short_cmd_is_skipped (p : Proc) (h : p.cmd.length < 2) :
    reapDecision p = false ∧ ∀ ps : List Proc, p ∉ reaper ps := by
  have hd : reapDecision p = false := by
    rcases hcmd : p.cmd with _ | ⟨c0, _ | ⟨c1, rest⟩⟩
    · simp [reapDecision, hcmd]
    · simp [reapDecision, hcmd]
    · rw [hcmd] at h
      simp only [List.length_cons] at h
      omega
  refine ⟨hd, ?_⟩
  intro ps hmem
  have hdec := (List.mem_filter.mp hmem).2
  rw [hd] at hdec
  exact Bool.false_ne_true hdec

/-- Claim C9, witness at a concrete one-argument process. -/
theorem short_cmd_is_skipped_witness :
    reapDecision sampleShortProc = false ∧
    sampleShortProc ∉ reaper [sampleShortProc] :=
  ⟨(short_cmd_is_skipped sampleShortProc (by decide)).1,
   (short_cmd_is_skipped sampleShortProc (by decide)).2 [sampleShortProc]⟩

/-- Claim C10: every run constructs its `PlaceRunner` with the constant
listener port `50312` (`main.rs` line 81) — the port does not depend on
the place path, the session id, or the script, and every run that spawns
the bridge records that same port. -/
theorem listener_port_constant :
    (∀ place_path server_id lua_script : String,
       (mkPlaceRunner place_path server_id lua_script).port = 50312) ∧
    ∀ env : Env, (run env).2.bridgeSpawned = true →
      (run env).2.runnerPort = some 50312 := by
  constructor
  · intro _ _ _
    rfl
  · intro env h
    rcases run_trace_cases env with hcase | hcase
    · rw [hcase] at h
      simp [emptyTrace] at h
    · exact hcase.2.1

/-- Claim C10, witness at concrete arguments and a concrete run. -/
theorem listener_port_constant_witness :
    (mkPlaceRunner "/tmp/x1/run-in-roblox-place.rbxl" "run-in-roblox-1234"
        "print(1)").port = 50312 ∧
    (run envC3).2.runnerPort = some 50312 :=
  ⟨listener_port_constant.1 "/tmp/x1/run-in-roblox-place.rbxl"
     "run-in-roblox-1234" "print(1)",
   listener_port_constant.2 envC3 (by decide)⟩

end RunInRoblox
